import Mathlib

/-!
Verification of the parseltongue core against its specification.

The Python modules `parseltongue/Task.py`, `parseltongue/Proxy/Task.py`,
`parseltongue/AIPSData.py` and `bin/XMLRPCServer.py` are shallowly embedded
below.  Python values stored in task attributes are modelled by the `Value`
inductive; Python floats are modelled by `ℚ` (only exact integer-to-float
coercion and comparison occur in the embedded code, so no rounding is
involved); exceptions are modelled by `Except PyErr`.
-/

set_option autoImplicit false

namespace Parseltongue

/-- A Python value as stored in a `Task` attribute: `None`, `int`, `float`
(exactly representable here as a rational), `str`, or a (possibly nested)
`list`. -/
inductive Value where
  | none
  | int (n : Int)
  | float (q : ℚ)
  | str (s : String)
  | list (xs : List Value)

/-- Python runtime types of the values above (`type(v)`). -/
inductive PyType where
  | noneT
  | intT
  | floatT
  | strT
  | listT
  deriving Repr, DecidableEq

/-- Python `type(v)` for the modelled values. -/
def Value.ty : Value → PyType
  | .none => .noneT
  | .int _ => .intT
  | .float _ => .floatT
  | .str _ => .strT
  | .list _ => .listT

/-- Python `v is None`. -/
def Value.isNone : Value → Bool
  | .none => true
  | _ => false

mutual
/-- Decidable structural equality of modelled values. -/
def Value.decEq : (a b : Value) → Decidable (a = b)
  | .none, .none => isTrue rfl
  | .int a, .int b =>
    if h : a = b then isTrue (by rw [h]) else isFalse (by simp [h])
  | .float a, .float b =>
    if h : a = b then isTrue (by rw [h]) else isFalse (by simp [h])
  | .str a, .str b =>
    if h : a = b then isTrue (by rw [h]) else isFalse (by simp [h])
  | .list xs, .list ys =>
    match Value.decEqList xs ys with
    | isTrue h => isTrue (by rw [h])
    | isFalse h => isFalse (by simp [h])
  | .none, .int _ => isFalse nofun
  | .none, .float _ => isFalse nofun
  | .none, .str _ => isFalse nofun
  | .none, .list _ => isFalse nofun
  | .int _, .none => isFalse nofun
  | .int _, .float _ => isFalse nofun
  | .int _, .str _ => isFalse nofun
  | .int _, .list _ => isFalse nofun
  | .float _, .none => isFalse nofun
  | .float _, .int _ => isFalse nofun
  | .float _, .str _ => isFalse nofun
  | .float _, .list _ => isFalse nofun
  | .str _, .none => isFalse nofun
  | .str _, .int _ => isFalse nofun
  | .str _, .float _ => isFalse nofun
  | .str _, .list _ => isFalse nofun
  | .list _, .none => isFalse nofun
  | .list _, .int _ => isFalse nofun
  | .list _, .float _ => isFalse nofun
  | .list _, .str _ => isFalse nofun

/-- Decidable structural equality of lists of modelled values. -/
def Value.decEqList : (xs ys : List Value) → Decidable (xs = ys)
  | [], [] => isTrue rfl
  | [], _ :: _ => isFalse nofun
  | _ :: _, [] => isFalse nofun
  | x :: xs, y :: ys =>
    match Value.decEq x y, Value.decEqList xs ys with
    | isTrue h1, isTrue h2 => isTrue (by rw [h1, h2])
    | isFalse h1, _ => isFalse (by simp [h1])
    | _, isFalse h2 => isFalse (by simp [h2])
end

instance : DecidableEq Value := Value.decEq

mutual
/-- Python `==` on the modelled values: numeric values compare across
`int`/`float`, lists compare elementwise, other cross-type comparisons are
`False`. -/
def pyEq : Value → Value → Bool
  | .none, .none => true
  | .int a, .int b => a = b
  | .int a, .float q => (a : ℚ) = q
  | .float q, .int a => q = (a : ℚ)
  | .float a, .float b => a = b
  | .str a, .str b => a = b
  | .list xs, .list ys => pyEqList xs ys
  | _, _ => false

/-- Python `==` on lists: equal lengths and elementwise `==`. -/
def pyEqList : List Value → List Value → Bool
  | [], [] => true
  | x :: xs, y :: ys => pyEq x y && pyEqList xs ys
  | _, _ => false
end

/-- The exceptions raised by the embedded code; each constructor corresponds
to one `raise` site (or to an exception raised by a Python builtin). -/
inductive PyErr where
  /-- Raised as `ValueError: setting element '%d' is prohibited` (`List.__setitem__`) -/
  | prohibitedElement (key : Nat)
  /-- Raised as `TypeError: array '...' is too big for attribute '%s'` (`_validateattr`) -/
  | arrayTooBig (attr : String)
  /-- Raised as `TypeError: value '...' has invalid type for attribute '%s'` -/
  | invalidType (attr : String)
  /-- Raised as `ValueError: value '...' is out of range for attribute '%s'` -/
  | outOfRange (attr : String)
  /-- Raised as `ValueError: string '...' is too long for attribute '%s'` -/
  | stringTooLong (attr : String)
  /-- A `TypeError` from an unsupported `<=` comparison -/
  | unsupportedCompare
  /-- A `TypeError` from `len()` of a value with no length -/
  | noLen
  /-- A `TypeError` from subscripting a non-sequence -/
  | notIndexable
  /-- An `IndexError` from an out-of-range list subscript -/
  | indexError
  /-- A `KeyError` from a missing dict key -/
  | keyError
  /-- An `AttributeError` (no such / ambiguous attribute, unknown dispatch name) -/
  | noSuchAttr (name : String)
  /-- An `AssertionError` from a failed `assert` -/
  | assertFailed
  deriving Repr, DecidableEq

/-- Tests whether the first character list is an initial segment of the
second (Python `str.startswith`). -/
def isPre : List Char → List Char → Bool
  | [], _ => true
  | _ :: _, [] => false
  | c :: cs, d :: ds => c = d && isPre cs ds

/-- Python `s.startswith(p)`. -/
def strPre (p s : String) : Bool := isPre p.data s.data

/-- Python `<=` on the modelled values (used for the `_min_dict`/`_max_dict`
range checks, whose entries are numbers or strings; list-list lexicographic
comparison does not occur there and is modelled as unsupported). -/
def pyLe : Value → Value → Except PyErr Bool
  | .int a, .int b => pure (a ≤ b)
  | .int a, .float q => pure ((a : ℚ) ≤ q)
  | .float q, .int a => pure (q ≤ (a : ℚ))
  | .float a, .float b => pure (a ≤ b)
  | .str a, .str b => pure (a ≤ b)
  | _, _ => throw .unsupportedCompare

/-- Python `len()` on the modelled values. -/
def pyLen : Value → Except PyErr Nat
  | .str s => pure s.length
  | .list xs => pure xs.length
  | _ => throw .noLen

/-- Python dict assignment `d[k] = v` on an association list. -/
def dictSet {α : Type} : List (String × α) → String → α → List (String × α)
  | [], k, v => [(k, v)]
  | (k', v') :: rest, k, v =>
    if k' = k then (k, v) :: rest else (k', v') :: dictSet rest k v

/-- Python dict read `d[k]` / `d.get(k)` on an association list. -/
def alookup {k : Type} [DecidableEq k] {a : Type} : List (k × a) → k → Option a
  | [], _ => Option.none
  | (k', v) :: rest, key => if k' = key then Option.some v else alookup rest key

/-- The state of a `Task` instance (`parseltongue/Task.py`).  `dict` models
the task-parameter entries of `self.__dict__`; the underscore-prefixed
bookkeeping attributes `_default_dict`, `_min_dict`, `_max_dict` and
`_strlen_dict` are modelled as separate record fields. -/
structure Task where
  dict : List (String × Value)
  default_dict : List (String × Value)
  min_dict : List (String × Value)
  max_dict : List (String × Value)
  strlen_dict : List (String × Nat)
  deriving DecidableEq

/-- Embeds the coercion step of `Task._validateattr`: an `int` value is
converted to `float` when the prior value is a `float`; any other value is
returned as is. -/
def coerceNum (value default : Value) : Value :=
  match value, default with
  | .int n, .float _ => .float (n : ℚ)
  | v, _ => v

/-- Embeds the `_min_dict` range check of `Task._validateattr`:
`min_val <= value` must hold when a minimum is declared for `attr`. -/
def checkMin (t : Task) (attr : String) (v : Value) : Except PyErr Unit :=
  match alookup t.min_dict attr with
  | Option.some m => do
    let b ← pyLe m v
    if ¬ b then throw (.outOfRange attr) else pure ()
  | Option.none => pure ()

/-- Embeds the `_max_dict` range check of `Task._validateattr`:
`value <= max_val` must hold when a maximum is declared for `attr`. -/
def checkMax (t : Task) (attr : String) (v : Value) : Except PyErr Unit :=
  match alookup t.max_dict attr with
  | Option.some m => do
    let b ← pyLe v m
    if ¬ b then throw (.outOfRange attr) else pure ()
  | Option.none => pure ()

/-- Embeds the `_strlen_dict` length check of `Task._validateattr`:
`len(value)` may not exceed the declared maximum when one exists. -/
def checkStrlen (t : Task) (attr : String) (v : Value) : Except PyErr Unit :=
  match alookup t.strlen_dict attr with
  | Option.some L => do
    let l ← pyLen v
    if l > L then throw (.stringTooLong attr) else pure ()
  | Option.none => pure ()

/-- Embeds the non-list tail of `Task._validateattr`: coerce `int` to
`float` when the prior value is a `float`, reject a type mismatch, then
run the range and string-length checks in order and return the (possibly
coerced) value. -/
def validateScalar (t : Task) (attr : String) (value default : Value) :
    Except PyErr Value :=
  let v := coerceNum value default
  if v.ty ≠ default.ty then throw (.invalidType attr)
  else do
    checkMin t attr v
    checkMax t attr v
    checkStrlen t attr v
    pure v

mutual
/-- Embeds `Task._validateattr(self, attr, value, default)`: private
attributes pass unchecked; `None` against `None` passes; a list is checked
for size against the prior list and validated elementwise into a fresh copy
of the prior list (via `List.__setitem__`, see `setElems`); any other value
goes through the scalar checks of `validateScalar`. -/
def validateattr (t : Task) (attr : String) (value default : Value) :
    Except PyErr Value :=
  if strPre "_" attr then pure value
  else if value.isNone && default.isNone then pure value
  else
    match value, default with
    | .list vs, .list ds =>
      if vs.length > ds.length then throw (.arrayTooBig attr)
      else do
        let r ← setElems t attr 0 vs ds
        pure (.list r)
    | v, d => validateScalar t attr v d

/-- Embeds the loop `for key in range(len(value)): validated_value[key] = value[key]`
of `_validateattr`, where `validated_value` starts as a fresh copy of the
prior list: each `List.__setitem__` first applies the sentinel check (a
non-`None` item may not replace a `None` element), then validates the item
against the element it replaces.  `k` is the index of the head (for the
error message); the tail of the copy beyond `len(value)` is kept as is. -/
def setElems (t : Task) (attr : String) (k : Nat) :
    List Value → List Value → Except PyErr (List Value)
  | [], ds => pure ds
  | _ :: _, [] => throw .indexError
  | v :: vs, d :: ds => do
    if !v.isNone && d.isNone then throw (.prohibitedElement k)
    else do
      let v' ← validateattr t attr v d
      let rest ← setElems t attr (k + 1) vs ds
      pure (v' :: rest)
end

/-- Embeds `List.__setitem__(self, key, item)` for a scalar index: `self[key]` must
exist, a non-`None` item may not replace a `None` element, and the item is
validated against the element it replaces. -/
def List_setitem (t : Task) (attr : String) (cur : List Value) (key : Nat)
    (item : Value) : Except PyErr (List Value) :=
  match cur[key]? with
  | Option.none => throw .indexError
  | Option.some curk =>
    if !item.isNone && curk.isNone then
      throw (.prohibitedElement key)
    else do
      let v ← validateattr t attr item curk
      pure (cur.set key v)

/-- Embeds Python's reading of a non-negative slice `self[low:high]`
(`list.__getitem__` at a slice key): the elements from `low` up to `high`,
clamped to the list's length. -/
def pySlice (cur : List Value) (low high : Nat) : List Value :=
  (cur.drop low).take (high - low)

/-- Embeds Python's base-class slice assignment
`list.__setitem__(self, slice(low, high), item)` for the non-negative
bounds used by the callers: the clamped range `low:high` is replaced by
`item`. -/
def pySliceAssign (cur : List Value) (low high : Nat) (vs : List Value) :
    List Value :=
  cur.take (min low cur.length) ++ vs ++
    cur.drop (max (min low cur.length) (min high cur.length))

/-- Extracts the validated list of a slice assignment; the non-list
fallback is unreachable, since validating a list value against a list
value always yields a list. -/
def asList : Value → Except PyErr (List Value)
  | .list vs => pure vs
  | _ => throw PyErr.notIndexable

/-- Embeds `List.__setitem__(self, key, item)` at a slice key
`key = slice(low, high)` — the live sub-range-replacement path under the
Python 3 slice protocol (Python 3 never invokes the `__setslice__` method
also present in the source, so that method is unreachable; the module
doctest confirms it by raising the array-too-big message for
`aparms[3:6] = [3, 4, 5, 6]`).  Here `self[key]` is the current sub-slice,
so the sentinel guard `item is not None and self[key] is None` is always
false and is omitted; the replacement sequence is validated by
`_validateattr` against the current sub-slice — rejecting a sequence
longer than the clamped range as too big, and keeping the current values
at range positions beyond a shorter sequence — and the validated list,
whose length equals the clamped range, replaces the range. -/
def List_setitem_slice (t : Task) (attr : String) (cur : List Value)
    (low high : Nat) (seq : List Value) : Except PyErr (List Value) := do
  let v ← validateattr t attr (Value.list seq)
    (Value.list (pySlice cur low high))
  let vs ← asList v
  pure (pySliceAssign cur low high vs)

/-- The canonical attribute names of a task: the keys of its parameter
dictionary. -/
def canonicalNames (t : Task) : List String := t.dict.map Prod.fst

/-- Modelled from the spec: `MinimalMatch._findattr` (the `MinimalMatch`
module is not in the source tree).  Per §4.1, a name is resolved through
unambiguous prefix matching against the canonical attribute name set: if
exactly one canonical name starts with the given prefix, that name is used;
if zero or more than one match, the operation fails with a
no-such-attribute error. -/
def findattr (t : Task) (name : String) : Except PyErr String :=
  match (canonicalNames t).filter (fun a => strPre name a) with
  | [a] => pure a
  | _ => throw (.noSuchAttr name)

/-- The tail of `Task.__setattr__` once the canonical name is known:
validate against the value already present (when there is one) and store
the result in `self.__dict__`. -/
def setCanonical (t : Task) (attr : String) (value : Value) :
    Except PyErr Task :=
  match alookup t.dict attr with
  | Option.some cur => do
    let v ← validateattr t attr value cur
    pure { t with dict := dictSet t.dict attr v }
  | Option.none => pure { t with dict := dictSet t.dict attr value }

/-- Embeds `Task.__setattr__(self, name, value)`: resolve `name` via `_findattr`,
then validate and store (`setCanonical`). -/
def Task_setattr (t : Task) (name : String) (value : Value) :
    Except PyErr Task := do
  let attr ← findattr t name
  setCanonical t attr value

/-- Modelled from the spec: the read path of the abbreviation-aware
container (`MinimalMatch.__getattr__`, module not in the source tree).
Per §4.1, `get(name)` performs the same abbreviation resolution as `set`
and returns the stored value at the resolved canonical name. -/
def Task_getattr (t : Task) (name : String) : Except PyErr Value := do
  let attr ← findattr t name
  match alookup t.dict attr with
  | Option.some v => pure v
  | Option.none => throw (.noSuchAttr name)

end Parseltongue

namespace ProxyTask

open Parseltongue

/-- One emitted operating-system side effect of the task supervisor
(`parseltongue/Proxy/Task.py`). -/
inductive Effect where
  /-- Effect of `os.kill(pid, sig)` -/
  | kill (pid sig : Nat)
  /-- Effect of `os.close(tid)` -/
  | closeFd (tid : Nat)
  deriving Repr, DecidableEq

/-- The bookkeeping state of `Proxy.Task.Task`: the `self._pid` mapping from
task id (pty file descriptor) to process id, where pid `0` marks a process
observed to have exited. -/
structure TaskState where
  pid : List (Nat × Nat)
  deriving Repr, DecidableEq

/-- Python `del d[k]` on the association list (the key is assumed present
by the caller; deleting a missing key is surfaced by the lookup that
precedes it in the embedded methods). -/
def dictDel (l : List (Nat × Nat)) (k : Nat) : List (Nat × Nat) :=
  l.filter (fun p => p.1 ≠ k)

/-- Embeds `Task.finished(self, tid)`: `self._pid[tid] == 0`; raises `KeyError`
when `tid` has no bookkeeping entry. -/
def finished (s : TaskState) (tid : Nat) : Except Parseltongue.PyErr Bool :=
  match alookup s.pid tid with
  | Option.none => throw .keyError
  | Option.some p => pure (p = 0)

/-- Embeds `Task.wait(self, tid)`: `assert self.finished(tid)`, then delete the
bookkeeping entry and `os.close(tid)`.  Returns the new state and the
emitted effects. -/
def wait (s : TaskState) (tid : Nat) :
    Except Parseltongue.PyErr (TaskState × List Effect) := do
  let f ← finished s tid
  if ¬ f then throw .assertFailed
  else pure (⟨dictDel s.pid tid⟩, [Effect.closeFd tid])

/-- Embeds `Task.abort(self, tid, sig)`: `os.kill(self._pid[tid], sig)` (raises
`KeyError` when `tid` has no bookkeeping entry), then delete the entry and
`os.close(tid)` — unconditionally, whether or not the process has exited. -/
def abort (s : TaskState) (tid : Nat) (sig : Nat) :
    Except Parseltongue.PyErr (TaskState × List Effect) :=
  match alookup s.pid tid with
  | Option.none => throw .keyError
  | Option.some p =>
    pure (⟨dictDel s.pid tid⟩, [Effect.kill p sig, Effect.closeFd tid])

end ProxyTask

namespace XMLRPC

/-- The attributes the `ServerFuncs` instance binds in `__init__` (the four
d00proxy target instances). -/
def serverAttrs : List String := ["AIPSTask", "AIPSUVData", "AIPSImage", "AIPSCat"]

/-- The number of `'.'` characters in a string (Python `name.count "."`). -/
def dotCount (s : String) : Nat := s.data.count '.'

/-- Python `name.split "."` restricted to taking the first two fields, as
used by `_dispatch` (`name[0]`, `name[1]` after `name = name.split "."`). -/
def splitDot (s : String) : List String :=
  (s.data.splitOnP (fun c => c = '.')).map (fun l => String.mk l)

/-- The observable outcome of a successful `_dispatch`: the call was
forwarded to method `mth` of the server attribute `cls` with `args`. -/
inductive DispatchRes where
  | forwarded (cls mth : String) (args : List Parseltongue.Value)
  deriving DecidableEq

/-- Embeds `ServerFuncs._dispatch(self, name, args)`: only a name that starts with
`"AIPS"` and contains exactly one dot is split and resolved
(`getattr(self, name[0])` succeeds exactly for the four instance
attributes, raising `AttributeError` otherwise); any other name raises
`AttributeError: object has no attribute '...'`.  The method lookup on the
target instance and the call itself happen in proxy modules outside this
core and are represented by the `forwarded` outcome. -/
def dispatch (name : String) (args : List Parseltongue.Value) :
    Except Parseltongue.PyErr DispatchRes :=
  if Parseltongue.strPre "AIPS" name && (dotCount name = 1 : Bool) then
    let parts := splitDot name
    match parts.get? 0, parts.get? 1 with
    | Option.some cls, Option.some mth =>
      if cls ∈ serverAttrs then pure (.forwarded cls mth args)
      else throw (.noSuchAttr cls)
    | _, _ => throw (.noSuchAttr name)
  else throw (.noSuchAttr name)

end XMLRPC

namespace AIPSData

/-- The concrete Python classes a generic AIPS data object can have
(`AIPSImage` and `AIPSUVData`, the two instantiable subclasses of
`_AIPSData`). -/
inductive DataClass where
  | image
  | uvdata
  deriving Repr, DecidableEq

/-- Embeds `_AIPSDataDesc`: the five identity fields of an AIPS data object. -/
structure Desc where
  name : String
  klass : String
  disk : Nat
  seq : Nat
  userno : Int
  deriving Repr, DecidableEq

/-- An AIPS data object as far as `_AIPSData.__eq__` observes it: its
Python class and its descriptor. -/
structure DataObj where
  cls : DataClass
  desc : Desc
  deriving Repr, DecidableEq

/-- Embeds `_AIPSData.__eq__(self, other)`: `False` when the classes differ, then
the five descriptor fields are compared in turn. -/
def dataEq (x y : DataObj) : Bool :=
  if x.cls ≠ y.cls then false
  else if x.desc.name ≠ y.desc.name then false
  else if x.desc.klass ≠ y.desc.klass then false
  else if x.desc.disk ≠ y.desc.disk then false
  else if x.desc.seq ≠ y.desc.seq then false
  else if x.desc.userno ≠ y.desc.userno then false
  else true

end AIPSData

instance {ε α : Type} [DecidableEq ε] [DecidableEq α] : DecidableEq (Except ε α) := fun a b =>
  match a, b with
  | .error a, .error b =>
    if h : a = b then isTrue (by rw [h]) else isFalse (by simp [h])
  | .error _, .ok _ => isFalse nofun
  | .ok _, .error _ => isFalse nofun
  | .ok a, .ok b =>
    if h : a = b then isTrue (by rw [h]) else isFalse (by simp [h])

namespace Parseltongue

mutual
/-- Says that a value covers the whole list structure of the prior value:
a list covers a prior list when it has exactly the prior length and its
elements cover the prior elements; every non-list pairing is covered.  A
value that fills the prior value is reproduced in full (up to `int`/`float`
coercion) by `validateattr`, with no positions left to be taken from the
prior value. -/
def fills : Value → Value → Bool
  | .list vs, .list ds => decide (vs.length = ds.length) && fillsList vs ds
  | _, _ => true

/-- Elementwise `fills` (equal-length lists). -/
def fillsList : List Value → List Value → Bool
  | v :: vs, d :: ds => fills v d && fillsList vs ds
  | _, _ => true
end

/-- The parameter store as the caller observes it after `set(name, value)`:
the updated task when the assignment succeeded, the original task when the
assignment raised (the exception propagates and the object is untouched). -/
def setResult (t : Task) (name : String) (value : Value) : Task :=
  match Task_setattr t name value with
  | Except.ok t' => t'
  | Except.error _ => t

/-- Ten float zeros, the declared default of the `aparms` fixture attribute. -/
def zeros10 : List Value := List.replicate 10 (Value.float 0)

/-- The declared default of the `bparms` fixture attribute, with the
1-based-indexing sentinel `None` at position 0. -/
def bdefault : List Value := [Value.none, Value.int 1, Value.int 2, Value.int 3]

/-- A concrete task fixture mirroring the `MyTask` example of the module
docstring of `parseltongue/Task.py`. -/
def myTask : Task where
  dict := [("indisk", Value.int 0), ("inseq", Value.int 0),
           ("infile", Value.str ""), ("pixavg", Value.float 1),
           ("aparms", Value.list zeros10), ("bparms", Value.list bdefault)]
  default_dict := [("aparms", Value.list zeros10), ("bparms", Value.list bdefault)]
  min_dict := [("inseq", Value.int 0), ("aparms", Value.int 0)]
  max_dict := [("inseq", Value.int 4), ("aparms", Value.int 10)]
  strlen_dict := [("infile", 14)]

/-- Ten float ones: a current (non-default) value for `aparms`. -/
def ones10 : List Value := List.replicate 10 (Value.float 1)

/-- The fixture task with `aparms` currently holding ten `1.0`, so that a
refilled position is observably reset to the declared default `0.0` rather
than kept at its current value. -/
def myTaskOnes : Task := { myTask with
  dict := [("indisk", Value.int 0), ("inseq", Value.int 0),
           ("infile", Value.str ""), ("pixavg", Value.float 1),
           ("aparms", Value.list ones10), ("bparms", Value.list bdefault)] }

/-- The validated value stored for `aparms` after assigning `[1, 2, 3]`:
the three coerced floats followed by the prior tail. -/
def stored3 : Value :=
  Value.list ([Value.float 1, Value.float 2, Value.float 3] ++
    List.replicate 7 (Value.float 0))

/-- The fixture task after the `aparms := [1, 2, 3]` assignment. -/
def myTaskAfter3 : Task :=
  { myTask with dict := dictSet myTask.dict "aparms" stored3 }

end Parseltongue

namespace AIPSData

/-- A concrete descriptor fixture. -/
def descX : Desc := ⟨"MANDELBROT", "MANDL", 1, 1, 3302⟩

end AIPSData

section ExceptHelpers

variable {e a b : Type}

@[simp] theorem except_throw_def (x : e) : (throw x : Except e a) = Except.error x := rfl

@[simp] theorem except_pure_def (x : a) : (pure x : Except e a) = Except.ok x := rfl

@[simp] theorem except_bind_ok (x : a) (f : a → Except e b) :
    (Except.ok x >>= f : Except e b) = f x := rfl

@[simp] theorem except_bind_error (x : e) (f : a → Except e b) :
    (Except.error x >>= f : Except e b) = Except.error x := rfl

@[simp] theorem except_map_ok (x : a) (f : a → b) :
    (f <$> (Except.ok x : Except e a)) = Except.ok (f x) := rfl

@[simp] theorem except_map_error (x : e) (f : a → b) :
    (f <$> (Except.error x : Except e a)) = Except.error x := rfl

end ExceptHelpers

namespace AIPSData

/-- C7: equality of two AIPS data objects holds iff their Python classes are
equal and their five descriptor identity fields (name, class-code, disk,
sequence, user number) are pairwise equal.  (Amended: the class check of
`_AIPSData.__eq__` is part of the condition.) -/
theorem dataEq_iff_class_and_fields (x y : DataObj) :
    dataEq x y = true ↔
      (x.cls = y.cls ∧ x.desc.name = y.desc.name ∧ x.desc.klass = y.desc.klass ∧
       x.desc.disk = y.desc.disk ∧ x.desc.seq = y.desc.seq ∧
       x.desc.userno = y.desc.userno) := by
  simp only [dataEq]
  split_ifs with h1 h2 h3 h4 h5 h6 <;> simp_all

/-- C7 counterexample: an `AIPSImage` and an `AIPSUVData` object with the
same five identity fields are not equal, so field agreement alone does not
imply equality. -/
theorem dataEq_same_fields_diff_class_cex :
    (DataObj.mk DataClass.image descX).desc = (DataObj.mk DataClass.uvdata descX).desc ∧
    dataEq (DataObj.mk DataClass.image descX) (DataObj.mk DataClass.uvdata descX) = false := by
  decide

end AIPSData

namespace XMLRPC

/-- C6 (amended): the dispatcher rejects any name with zero or two-or-more
dots with an attribute-not-found fault, and also rejects any name that does
not start with `"AIPS"`; a name that starts with `"AIPS"`, has exactly one
dot, and whose class part names one of the four server target instances is
forwarded to the like-named method of that instance with the given
arguments; a one-dot `"AIPS"`-prefixed name whose class part names no
target instance raises an attribute-not-found fault as well. -/
theorem dispatch_gate (name : String) (args : List Parseltongue.Value) :
    (dotCount name ≠ 1 →
      dispatch name args = Except.error (.noSuchAttr name)) ∧
    (Parseltongue.strPre "AIPS" name = false →
      dispatch name args = Except.error (.noSuchAttr name)) ∧
    (∀ cls mth, dotCount name = 1 → Parseltongue.strPre "AIPS" name = true →
      splitDot name = [cls, mth] → cls ∈ serverAttrs →
      dispatch name args = Except.ok (.forwarded cls mth args)) ∧
    (∀ cls mth, dotCount name = 1 → Parseltongue.strPre "AIPS" name = true →
      splitDot name = [cls, mth] → cls ∉ serverAttrs →
      dispatch name args = Except.error (.noSuchAttr cls)) := by
  refine ⟨?_, ?_, ?_, ?_⟩
  · intro h; simp [dispatch, h]
  · intro h; simp [dispatch, h]
  · intro cls mth h1 h2 h3 h4; simp [dispatch, h1, h2, h3, h4]
  · intro cls mth h1 h2 h3 h4; simp [dispatch, h1, h2, h3, h4]

/-- C6 witness: a dotless name is rejected, and
`AIPSImage.zap` is forwarded to the `zap` method of the `AIPSImage`
instance. -/
theorem dispatch_gate_witness :
    dispatch "ab" [] = Except.error (.noSuchAttr "ab") ∧
    dispatch "AIPSImage.zap" [] =
      Except.ok (.forwarded "AIPSImage" "zap" []) := by
  refine ⟨(dispatch_gate "ab" []).1 (by decide), ?_⟩
  exact (dispatch_gate "AIPSImage.zap" []).2.2.1 "AIPSImage" "zap"
    (by decide) (by decide) (by decide) (by decide)

/-- C6 counterexample: `"Data.zap"` has exactly one separator, yet the
dispatcher raises the attribute-not-found fault instead of forwarding,
because the name does not start with `"AIPS"`. -/
theorem dispatch_one_dot_not_forwarded_cex :
    dotCount "Data.zap" = 1 ∧
    dispatch "Data.zap" [] = Except.error (.noSuchAttr "Data.zap") := by
  decide

end XMLRPC

namespace ProxyTask

open Parseltongue

theorem lookup_dictDel_self (l : List (Nat × Nat)) (k : Nat) :
    alookup (dictDel l k) k = Option.none := by
  induction l with
  | nil => rfl
  | cons p rest ih =>
    obtain ⟨pk, pv⟩ := p
    by_cases h : pk = k
    · simpa [dictDel, List.filter_cons, h] using ih
    · simpa [dictDel, List.filter_cons, h, alookup] using ih

/-- C9: when a task id has a bookkeeping entry with process id `p` —
whether or not the process has exited (`p` arbitrary, in particular
nonzero) — `abort` sends the signal, closes the descriptor and removes the
entry; afterwards a second `abort` or a `wait` on the same id fails on the
missing entry (`KeyError`); `wait` itself asserts `finished`, failing on a
still-running task (`p ≠ 0`) and otherwise removing the entry and closing
the descriptor. -/
theorem abort_wait_bookkeeping (s : TaskState) (tid sig p : Nat)
    (h : alookup s.pid tid = Option.some p) :
    abort s tid sig =
      Except.ok (⟨dictDel s.pid tid⟩, [Effect.kill p sig, Effect.closeFd tid]) ∧
    alookup (dictDel s.pid tid) tid = Option.none ∧
    abort ⟨dictDel s.pid tid⟩ tid sig = Except.error .keyError ∧
    wait ⟨dictDel s.pid tid⟩ tid = Except.error .keyError ∧
    (p ≠ 0 → wait s tid = Except.error .assertFailed) ∧
    (p = 0 → wait s tid = Except.ok (⟨dictDel s.pid tid⟩, [Effect.closeFd tid])) := by
  refine ⟨?_, lookup_dictDel_self s.pid tid, ?_, ?_, ?_, ?_⟩
  · simp [abort, h]
  · simp [abort, lookup_dictDel_self]
  · simp [wait, finished, lookup_dictDel_self]
  · intro hp; simp [wait, finished, h, hp]
  · intro hp; simp [wait, finished, h, hp]

/-- C9 witness: at the concrete state with task id 5 mapped to the
still-running process 42, `abort` succeeds and clears the entry, and `wait`
is an assertion failure. -/
theorem abort_wait_bookkeeping_witness :
    abort ⟨[(5, 42)]⟩ 5 2 =
      Except.ok (⟨[]⟩, [Effect.kill 42 2, Effect.closeFd 5]) ∧
    wait ⟨[(5, 42)]⟩ 5 = Except.error .assertFailed := by
  have h := abort_wait_bookkeeping ⟨[(5, 42)]⟩ 5 2 42 (by decide)
  exact ⟨h.1, h.2.2.2.2.1 (by decide)⟩

end ProxyTask

namespace Parseltongue

theorem validateattr_none_none (t : Task) (attr : String) :
    validateattr t attr Value.none Value.none = Except.ok Value.none := by
  simp only [validateattr]
  simp [Value.isNone]

@[simp] theorem value_isNone_iff (v : Value) : v.isNone = true ↔ v = Value.none := by
  cases v <;> simp [Value.isNone]

/-- C4: when element 0 of a stored list holds the sentinel `None`, assigning
any non-`None` value at index 0 raises the prohibited-element error, and
assigning `None` at index 0 succeeds and leaves the list unchanged. -/
theorem sentinel_zero (t : Task) (attr : String) (cur : List Value)
    (item : Value) (h0 : cur[0]? = Option.some Value.none) :
    (item ≠ Value.none →
      List_setitem t attr cur 0 item = Except.error (.prohibitedElement 0)) ∧
    List_setitem t attr cur 0 Value.none = Except.ok cur := by
  constructor
  · intro hne
    simp [List_setitem, h0, hne]
  · cases cur with
    | nil => simp at h0
    | cons a l =>
      have ha : a = Value.none := by simpa using h0
      subst ha
      simp [List_setitem, validateattr_none_none, Value.isNone]

/-- C4 witness: on the `bparms` fixture list (sentinel at position 0),
assigning `0` at index 0 is rejected and assigning `None` is accepted
unchanged. -/
theorem sentinel_zero_witness :
    List_setitem myTask "bparms" bdefault 0 (Value.int 0) =
      Except.error (.prohibitedElement 0) ∧
    List_setitem myTask "bparms" bdefault 0 Value.none = Except.ok bdefault := by
  have h := sentinel_zero myTask "bparms" bdefault (Value.int 0) (by decide)
  exact ⟨h.1 (by decide), h.2⟩

/-- C10: the sentinel protection of `List.__setitem__` is uniform in the
index: at every position `K` whose current element is `None`, assigning any
non-`None` value raises the prohibited-element error for `K`. -/
theorem sentinel_any_index (t : Task) (attr : String) (cur : List Value)
    (K : Nat) (item : Value) (hK : cur[K]? = Option.some Value.none)
    (hi : item ≠ Value.none) :
    List_setitem t attr cur K item = Except.error (.prohibitedElement K) := by
  simp [List_setitem, hK, hi]

/-- C10 witness: a `None` at interior position 2 likewise rejects a
non-`None` assignment at position 2. -/
theorem sentinel_any_index_witness :
    List_setitem myTask "cparms"
      [Value.int 1, Value.float 2, Value.none, Value.int 4] 2 (Value.str "x") =
      Except.error (.prohibitedElement 2) :=
  sentinel_any_index myTask "cparms"
    [Value.int 1, Value.float 2, Value.none, Value.int 4] 2 (Value.str "x")
    (by decide) (by decide)

end Parseltongue

namespace Parseltongue

theorem except_bind_ok_iff {e a b : Type} (x : Except e a) (f : a → Except e b)
    (r : b) : (x >>= f) = Except.ok r ↔
      ∃ u, x = Except.ok u ∧ f u = Except.ok r := by
  cases x <;> simp

/-- C3 (spec-modelled resolution): a prefix matched by exactly one canonical
attribute name resolves, for reading and for assigning, to that canonical
name; a prefix matched by zero or several canonical names makes the
operation fail with the no-such-attribute error. -/
theorem abbrev_resolution (t : Task) (p : String) :
    (∀ N, (canonicalNames t).filter (fun a => strPre p a) = [N] →
      findattr t p = Except.ok N ∧
      N ∈ canonicalNames t ∧ strPre p N = true ∧
      (∀ v, Task_setattr t p v = setCanonical t N v) ∧
      (∀ v, alookup t.dict N = Option.some v →
        Task_getattr t p = Except.ok v)) ∧
    (((canonicalNames t).filter (fun a => strPre p a)).length ≠ 1 →
      findattr t p = Except.error (.noSuchAttr p) ∧
      (∀ v, Task_setattr t p v = Except.error (.noSuchAttr p)) ∧
      Task_getattr t p = Except.error (.noSuchAttr p)) := by
  constructor
  · intro N h
    have hf : findattr t p = Except.ok N := by simp [findattr, h]
    have hm : N ∈ (canonicalNames t).filter (fun a => strPre p a) := by
      rw [h]; exact List.mem_singleton_self N
    rw [List.mem_filter] at hm
    exact ⟨hf, hm.1, hm.2, fun v => by simp [Task_setattr, hf],
      fun v hv => by simp [Task_getattr, hf, hv]⟩
  · intro hlen
    have hf : findattr t p = Except.error (.noSuchAttr p) := by
      rcases hfil : (canonicalNames t).filter (fun a => strPre p a) with
        _ | ⟨a, _ | ⟨b, tl⟩⟩
      · simp [findattr, hfil]
      · rw [hfil] at hlen; simp at hlen
      · simp [findattr, hfil]
    exact ⟨hf, fun v => by simp [Task_setattr, hf], by simp [Task_getattr, hf]⟩

/-- C3 witness: on the fixture attribute set, the prefix `ind` is matched
only by `indisk` and reads its value; the prefix `in` is ambiguous
(`indisk`, `inseq`, `infile`) and fails. -/
theorem abbrev_resolution_witness :
    Task_getattr myTask "ind" = Except.ok (Value.int 0) ∧
    Task_getattr myTask "in" = Except.error (.noSuchAttr "in") := by
  constructor
  · exact ((abbrev_resolution myTask "ind").1 "indisk" (by decide)).2.2.2.2
      (Value.int 0) (by decide)
  · exact ((abbrev_resolution myTask "in").2 (by decide)).2.2

theorem setElems_length (t : Task) (attr : String) :
    ∀ (vs ds : List Value) (k : Nat) (rs : List Value),
      setElems t attr k vs ds = Except.ok rs → rs.length = ds.length := by
  intro vs
  induction vs with
  | nil =>
    intro ds k rs h
    simp [setElems] at h
    rw [h]
  | cons v vstl ih =>
    intro ds k rs h
    cases ds with
    | nil => simp [setElems] at h
    | cons d dstl =>
      simp only [setElems] at h
      by_cases hc : (!v.isNone && d.isNone) = true
      · simp [hc] at h
      · simp only [hc, if_false, Bool.false_eq_true, if_neg] at h
        rw [except_bind_ok_iff] at h
        obtain ⟨v', hv', h2⟩ := h
        rw [except_bind_ok_iff] at h2
        obtain ⟨rest, hrest, h3⟩ := h2
        simp only [except_pure_def, Except.ok.injEq] at h3
        rw [← h3]
        simp [ih dstl (k + 1) rest hrest]

theorem validateattr_list_ok (t : Task) (attr : String) (vs ds : List Value)
    (w : Value) (hpriv : strPre "_" attr = false)
    (h : validateattr t attr (Value.list vs) (Value.list ds) = Except.ok w) :
    ∃ rs, w = Value.list rs ∧ setElems t attr 0 vs ds = Except.ok rs ∧
      vs.length ≤ ds.length := by
  simp only [validateattr, hpriv, Value.isNone, Bool.false_and,
    Bool.false_eq_true, if_false] at h
  by_cases hgt : vs.length > ds.length
  · simp [hgt] at h
  · simp only [hgt, if_neg, if_false] at h
    rw [except_bind_ok_iff] at h
    obtain ⟨rs, hrs, hw⟩ := h
    simp only [except_pure_def, Except.ok.injEq] at hw
    exact ⟨rs, hw.symm, hrs, by omega⟩

theorem setElems_get_tail (t : Task) (attr : String) :
    ∀ (vs ds : List Value) (k : Nat) (rs : List Value),
      setElems t attr k vs ds = Except.ok rs →
      ∀ i, vs.length ≤ i → rs[i]? = ds[i]? := by
  intro vs
  induction vs with
  | nil =>
    intro ds k rs h i _
    simp [setElems] at h
    rw [h]
  | cons v vstl ih =>
    intro ds k rs h i hi
    cases ds with
    | nil => simp [setElems] at h
    | cons d dstl =>
      simp only [setElems] at h
      by_cases hc : (!v.isNone && d.isNone) = true
      · simp [hc] at h
      · simp only [hc, Bool.false_eq_true, if_neg, if_false] at h
        rw [except_bind_ok_iff] at h
        obtain ⟨v', hv', h2⟩ := h
        rw [except_bind_ok_iff] at h2
        obtain ⟨rest, hrest, h3⟩ := h2
        simp only [except_pure_def, Except.ok.injEq] at h3
        subst h3
        cases i with
        | zero => simp at hi
        | succ i' =>
          simp only [List.getElem?_cons_succ]
          exact ih dstl (k + 1) rest hrest i' (by simpa using hi)

theorem pySliceAssign_length (cur vs : List Value) (low high : Nat)
    (hv : vs.length = (pySlice cur low high).length) :
    (pySliceAssign cur low high vs).length = cur.length := by
  simp only [pySlice, List.length_take, List.length_drop] at hv
  simp only [pySliceAssign, List.length_append, List.length_take,
    List.length_drop]
  omega

/-- C2 (amended): a list attribute keeps its declared length: a successful
whole-attribute validation returns a list of exactly the prior length; an
input list longer than the prior list is rejected with the array-too-big
error; a successful sub-range replacement (slice assignment, dispatched by
Python 3 to `List.__setitem__` with a slice key) keeps the stored length;
and the spec's example — replacing elements `3:6` of a 10-element list by
a 4-element sequence — always raises the array-too-big error, because the
sequence exceeds the clamped range.  A sequence shorter than the range is
accepted without error (see the counterexample), the remaining range
positions keeping their current values, so the length is still exactly the
declared one. -/
theorem list_fixed_length (t : Task) (attr : String) (cur vs seq : List Value)
    (low high : Nat) (hpriv : strPre "_" attr = false) :
    (∀ r, validateattr t attr (Value.list vs) (Value.list cur) = Except.ok r →
      ∃ rs, r = Value.list rs ∧ rs.length = cur.length) ∧
    (vs.length > cur.length →
      validateattr t attr (Value.list vs) (Value.list cur) =
        Except.error (.arrayTooBig attr)) ∧
    (∀ r, List_setitem_slice t attr cur low high seq = Except.ok r →
      r.length = cur.length) ∧
    (cur.length = 10 → seq.length = 4 →
      List_setitem_slice t attr cur 3 6 seq =
        Except.error (.arrayTooBig attr)) := by
  refine ⟨?_, ?_, ?_, ?_⟩
  · intro r h
    obtain ⟨rs, hw, hrs, _⟩ := validateattr_list_ok t attr vs cur r hpriv h
    exact ⟨rs, hw, setElems_length t attr vs cur 0 rs hrs⟩
  · intro hgt
    simp [validateattr, hpriv, Value.isNone, hgt]
  · intro r h
    simp only [List_setitem_slice] at h
    rw [except_bind_ok_iff] at h
    obtain ⟨v, hv, h2⟩ := h
    rw [except_bind_ok_iff] at h2
    obtain ⟨ws, hws, h3⟩ := h2
    obtain ⟨rs, hw, hrs, _⟩ := validateattr_list_ok t attr seq _ v hpriv hv
    subst hw
    simp only [asList, except_pure_def, Except.ok.injEq] at hws
    subst hws
    simp only [except_pure_def, Except.ok.injEq] at h3
    subst h3
    exact pySliceAssign_length cur rs low high
      (setElems_length t attr seq (pySlice cur low high) 0 rs hrs)
  · intro h10 h4
    have hsub : (pySlice cur 3 6).length = 3 := by
      simp [pySlice, h10]
    have hva : validateattr t attr (Value.list seq)
        (Value.list (pySlice cur 3 6)) =
        Except.error (.arrayTooBig attr) := by
      simp [validateattr, hpriv, Value.isNone, hsub, h4]
    simp [List_setitem_slice, hva]

/-- C2 witness: on the ten-zero fixture list, a shorter assignment still
yields length 10, an 11-element list is rejected, an accepted sub-range
replacement preserves length 10, and the `3:6` example with four elements
fails. -/
theorem list_fixed_length_witness :
    (∃ rs, stored3 = Value.list rs ∧ rs.length = 10) ∧
    validateattr myTask "aparms"
      (Value.list (List.replicate 11 (Value.int 1))) (Value.list zeros10) =
      Except.error (.arrayTooBig "aparms") ∧
    ([Value.float 0, Value.float 0, Value.float 0, Value.float 1,
        Value.float 2] ++ List.replicate 5 (Value.float 0)).length = 10 ∧
    List_setitem_slice myTask "aparms" zeros10 3 6
      [Value.int 3, Value.int 4, Value.int 5, Value.int 6] =
      Except.error (.arrayTooBig "aparms") := by
  have h1 := list_fixed_length myTask "aparms" zeros10
    [Value.int 1, Value.int 2, Value.int 3] [] 0 0 (by decide)
  have h2 := list_fixed_length myTask "aparms" zeros10
    (List.replicate 11 (Value.int 1)) [] 0 0 (by decide)
  have h3 := list_fixed_length myTask "aparms" zeros10 []
    [Value.int 1, Value.int 2] 3 6 (by decide)
  have h4 := list_fixed_length myTask "aparms" zeros10 []
    [Value.int 3, Value.int 4, Value.int 5, Value.int 6] 0 0 (by decide)
  refine ⟨h1.1 stored3 (by decide), h2.2.1 (by decide), ?_,
    h4.2.2.2 (by decide) (by decide)⟩
  exact h3.2.2.1 ([Value.float 0, Value.float 0, Value.float 0,
    Value.float 1, Value.float 2] ++ List.replicate 5 (Value.float 0))
    (by decide)

/-- C2 counterexample (to the original claim): a sub-range replacement
with a sequence shorter than the replaced range — replacing elements `3:6`
of a 10-element list with 2 elements, which under plain Python list
semantics would shrink the list — is accepted without any error by the
live slice-assignment path; the result keeps length 10 (the third range
position keeps its current value). -/
theorem list_fixed_length_shorter_slice_cex :
    List_setitem_slice myTask "aparms" zeros10 3 6
      [Value.int 1, Value.int 2] =
      Except.ok ([Value.float 0, Value.float 0, Value.float 0,
        Value.float 1, Value.float 2] ++ List.replicate 5 (Value.float 0)) ∧
    ([Value.float 0, Value.float 0, Value.float 0, Value.float 1,
        Value.float 2] ++ List.replicate 5 (Value.float 0)).length = 10 := by
  exact ⟨by decide, by decide⟩

/-- C8: an assignment that raises a validation error leaves the parameter
store exactly as it was — the caller-observed store equals the prior store
at every attribute; in particular (closed instance) a list value whose
first element validates and whose second is rejected leaves the fixture
store untouched. -/
theorem failed_set_leaves_store (t : Task) (name : String) (v : Value)
    (e : PyErr) (h : Task_setattr t name v = Except.error e) :
    setResult t name v = t ∧
    (∀ a, alookup (setResult t name v).dict a = alookup t.dict a) ∧
    validateattr myTask "aparms" (Value.int 1) (Value.float 0) =
      Except.ok (Value.float 1) ∧
    validateattr myTask "aparms" (Value.list [Value.int 1, Value.str "x"])
      (Value.list zeros10) = Except.error (.invalidType "aparms") ∧
    setResult myTask "aparms" (Value.list [Value.int 1, Value.str "x"])
      = myTask := by
  refine ⟨by simp [setResult, h], fun a => by simp [setResult, h], ?_, ?_, ?_⟩
  · decide
  · decide
  · decide

/-- C8 witness: at the concrete rejected assignment (first list element
valid, second of the wrong type) the store is unchanged. -/
theorem failed_set_leaves_store_witness :
    setResult myTask "aparms" (Value.list [Value.int 1, Value.str "x"])
      = myTask :=
  (failed_set_leaves_store myTask "aparms"
    (Value.list [Value.int 1, Value.str "x"]) (.invalidType "aparms")
    (by decide)).1

/-- C5 (amended): in a successful sub-range replacement (slice assignment,
dispatched by Python 3 to `List.__setitem__` with a slice key) whose
replacement sequence is shorter than the replaced range, each range
position beyond the sequence keeps the list's current value at that
position — the validated copy is built from the current sub-slice — and
not a copy of that position's declared default. -/
theorem setitem_slice_keeps_current (t : Task) (attr : String)
    (cur seq r : List Value) (low high : Nat)
    (hpriv : strPre "_" attr = false)
    (h : List_setitem_slice t attr cur low high seq = Except.ok r) :
    ∀ key, low + seq.length ≤ key → key < min high cur.length →
      r[key]? = cur[key]? := by
  intro key hk1 hk2
  simp only [List_setitem_slice] at h
  rw [except_bind_ok_iff] at h
  obtain ⟨v, hv, h2⟩ := h
  rw [except_bind_ok_iff] at h2
  obtain ⟨ws, hws, h3⟩ := h2
  obtain ⟨rs, hw, hrs, hle⟩ := validateattr_list_ok t attr seq _ v hpriv hv
  subst hw
  simp only [asList, except_pure_def, Except.ok.injEq] at hws
  subst hws
  simp only [except_pure_def, Except.ok.injEq] at h3
  subst h3
  have hlen : rs.length = (pySlice cur low high).length :=
    setElems_length t attr seq (pySlice cur low high) 0 rs hrs
  have hsub : (pySlice cur low high).length =
      min (high - low) (cur.length - low) := by
    simp [pySlice]
  have hminle : min high cur.length ≤ cur.length := Nat.min_le_right _ _
  have hminle' : min high cur.length ≤ high := Nat.min_le_left _ _
  have hlow : low ≤ cur.length := by omega
  have hrslen : rs.length = min (high - low) (cur.length - low) := by
    rw [hlen, hsub]
  have htake : (cur.take (min low cur.length)).length = low := by
    simp only [List.length_take]
    omega
  simp only [pySliceAssign]
  rw [List.getElem?_append_left
    (by simp only [List.length_append]; rw [htake]; omega)]
  rw [List.getElem?_append_right (by rw [htake]; omega)]
  rw [htake]
  rw [setElems_get_tail t attr seq (pySlice cur low high) 0 rs hrs
    (key - low) (by omega)]
  simp only [pySlice]
  rw [List.getElem?_take_of_lt (by omega : key - low < high - low)]
  rw [List.getElem?_drop]
  have : low + (key - low) = key := by omega
  rw [this]

/-- C5 witness: at the concrete accepted replacement `aparms[3:10] = [5]`
with all-`1.0` current values, range position 5 (beyond the one-element
sequence) keeps the current value. -/
theorem setitem_slice_keeps_current_witness :
    ([Value.float 1, Value.float 1, Value.float 1, Value.float 5] ++
      List.replicate 6 (Value.float 1))[5]? = ones10[5]? :=
  setitem_slice_keeps_current myTaskOnes "aparms" ones10 [Value.int 5]
    ([Value.float 1, Value.float 1, Value.float 1, Value.float 5] ++
      List.replicate 6 (Value.float 1)) 3 10 (by decide) (by decide) 5
    (by decide) (by decide)

/-- C5 counterexample (to the original claim): with `aparms` currently all
`1.0` and its declared default all zeros, the live slice assignment
`aparms[3:10] = [5]` succeeds, and range position 5 — beyond the
one-element replacement sequence — holds the current `1.0` afterwards,
not a copy of the declared default `0.0` from `_default_dict`. -/
theorem setslice_refill_current_cex :
    alookup myTaskOnes.default_dict "aparms" =
      Option.some (Value.list zeros10) ∧
    zeros10[5]? = Option.some (Value.float 0) ∧
    List_setitem_slice myTaskOnes "aparms" ones10 3 10 [Value.int 5] =
      Except.ok ([Value.float 1, Value.float 1, Value.float 1,
        Value.float 5] ++ List.replicate 6 (Value.float 1)) ∧
    ([Value.float 1, Value.float 1, Value.float 1, Value.float 5] ++
        List.replicate 6 (Value.float 1))[5]? =
      Option.some (Value.float 1) := by
  exact ⟨by decide, by decide, by decide, by decide⟩

mutual
theorem pyEq_refl : ∀ v : Value, pyEq v v = true
  | .none => rfl
  | .int a => by simp [pyEq]
  | .float a => by simp [pyEq]
  | .str a => by simp [pyEq]
  | .list xs => by
    simp only [pyEq]
    exact pyEqList_refl xs

theorem pyEqList_refl : ∀ xs : List Value, pyEqList xs xs = true
  | [] => rfl
  | x :: xs => by
    simp only [pyEqList, Bool.and_eq_true]
    exact ⟨pyEq_refl x, pyEqList_refl xs⟩
end

theorem coerceNum_pyEq (value default : Value) :
    pyEq (coerceNum value default) value = true := by
  cases value <;> cases default <;>
    simp [coerceNum, pyEq, pyEq_refl, pyEqList_refl]

theorem validateScalar_ok (t : Task) (attr : String) (value default w : Value)
    (h : validateScalar t attr value default = Except.ok w) :
    w.ty = default.ty ∧ pyEq w value = true := by
  simp only [validateScalar] at h
  by_cases hty : (coerceNum value default).ty ≠ default.ty
  · simp [hty] at h
  · rw [if_neg hty] at h
    rw [except_bind_ok_iff] at h
    obtain ⟨u1, _, h⟩ := h
    rw [except_bind_ok_iff] at h
    obtain ⟨u2, _, h⟩ := h
    rw [except_bind_ok_iff] at h
    obtain ⟨u3, _, h⟩ := h
    simp only [except_pure_def, Except.ok.injEq] at h
    subst h
    exact ⟨not_ne_iff.mp hty, coerceNum_pyEq value default⟩

theorem validateattr_scalar_roundtrip (t : Task) (attr : String)
    (value default w : Value)
    (hs : validateattr t attr value default = validateScalar t attr value default)
    (h : validateattr t attr value default = Except.ok w) :
    w.ty = default.ty ∧ (fills value default = true → pyEq w value = true) := by
  rw [hs] at h
  obtain ⟨h1, h2⟩ := validateScalar_ok t attr value default w h
  exact ⟨h1, fun _ => h2⟩

mutual
theorem validateattr_roundtrip (t : Task) (attr : String) :
    ∀ (value default w : Value), strPre "_" attr = false →
      validateattr t attr value default = Except.ok w →
      w.ty = default.ty ∧ (fills value default = true → pyEq w value = true)
  | .none, .none, w, hpriv, h => by
    rw [validateattr_none_none] at h
    injection h with h
    subst h
    exact ⟨rfl, fun _ => rfl⟩
  | .none, .int b, w, hpriv, h =>
    validateattr_scalar_roundtrip t attr _ _ w
      (by simp [validateattr, hpriv, Value.isNone]) h
  | .none, .float b, w, hpriv, h =>
    validateattr_scalar_roundtrip t attr _ _ w
      (by simp [validateattr, hpriv, Value.isNone]) h
  | .none, .str b, w, hpriv, h =>
    validateattr_scalar_roundtrip t attr _ _ w
      (by simp [validateattr, hpriv, Value.isNone]) h
  | .none, .list ds, w, hpriv, h =>
    validateattr_scalar_roundtrip t attr _ _ w
      (by simp [validateattr, hpriv, Value.isNone]) h
  | .int a, .none, w, hpriv, h =>
    validateattr_scalar_roundtrip t attr _ _ w
      (by simp [validateattr, hpriv, Value.isNone]) h
  | .int a, .int b, w, hpriv, h =>
    validateattr_scalar_roundtrip t attr _ _ w
      (by simp [validateattr, hpriv, Value.isNone]) h
  | .int a, .float b, w, hpriv, h =>
    validateattr_scalar_roundtrip t attr _ _ w
      (by simp [validateattr, hpriv, Value.isNone]) h
  | .int a, .str b, w, hpriv, h =>
    validateattr_scalar_roundtrip t attr _ _ w
      (by simp [validateattr, hpriv, Value.isNone]) h
  | .int a, .list ds, w, hpriv, h =>
    validateattr_scalar_roundtrip t attr _ _ w
      (by simp [validateattr, hpriv, Value.isNone]) h
  | .float a, .none, w, hpriv, h =>
    validateattr_scalar_roundtrip t attr _ _ w
      (by simp [validateattr, hpriv, Value.isNone]) h
  | .float a, .int b, w, hpriv, h =>
    validateattr_scalar_roundtrip t attr _ _ w
      (by simp [validateattr, hpriv, Value.isNone]) h
  | .float a, .float b, w, hpriv, h =>
    validateattr_scalar_roundtrip t attr _ _ w
      (by simp [validateattr, hpriv, Value.isNone]) h
  | .float a, .str b, w, hpriv, h =>
    validateattr_scalar_roundtrip t attr _ _ w
      (by simp [validateattr, hpriv, Value.isNone]) h
  | .float a, .list ds, w, hpriv, h =>
    validateattr_scalar_roundtrip t attr _ _ w
      (by simp [validateattr, hpriv, Value.isNone]) h
  | .str a, .none, w, hpriv, h =>
    validateattr_scalar_roundtrip t attr _ _ w
      (by simp [validateattr, hpriv, Value.isNone]) h
  | .str a, .int b, w, hpriv, h =>
    validateattr_scalar_roundtrip t attr _ _ w
      (by simp [validateattr, hpriv, Value.isNone]) h
  | .str a, .float b, w, hpriv, h =>
    validateattr_scalar_roundtrip t attr _ _ w
      (by simp [validateattr, hpriv, Value.isNone]) h
  | .str a, .str b, w, hpriv, h =>
    validateattr_scalar_roundtrip t attr _ _ w
      (by simp [validateattr, hpriv, Value.isNone]) h
  | .str a, .list ds, w, hpriv, h =>
    validateattr_scalar_roundtrip t attr _ _ w
      (by simp [validateattr, hpriv, Value.isNone]) h
  | .list vs, .none, w, hpriv, h =>
    validateattr_scalar_roundtrip t attr _ _ w
      (by simp [validateattr, hpriv, Value.isNone]) h
  | .list vs, .int b, w, hpriv, h =>
    validateattr_scalar_roundtrip t attr _ _ w
      (by simp [validateattr, hpriv, Value.isNone]) h
  | .list vs, .float b, w, hpriv, h =>
    validateattr_scalar_roundtrip t attr _ _ w
      (by simp [validateattr, hpriv, Value.isNone]) h
  | .list vs, .str b, w, hpriv, h =>
    validateattr_scalar_roundtrip t attr _ _ w
      (by simp [validateattr, hpriv, Value.isNone]) h
  | .list vs, .list ds, w, hpriv, h => by
    simp only [validateattr, hpriv, Value.isNone, Bool.false_and,
      Bool.false_eq_true, if_false] at h
    by_cases hlen : vs.length > ds.length
    · simp [hlen] at h
    · simp only [hlen, if_neg, if_false] at h
      rw [except_bind_ok_iff] at h
      obtain ⟨rs, hrs, hw⟩ := h
      simp only [except_pure_def, Except.ok.injEq] at hw
      subst hw
      refine ⟨rfl, fun hf => ?_⟩
      simp only [fills, Bool.and_eq_true, decide_eq_true_eq] at hf
      simp only [pyEq]
      exact setElems_roundtrip t attr vs ds 0 rs hpriv hrs hf.1 hf.2

theorem setElems_roundtrip (t : Task) (attr : String) :
    ∀ (vs ds : List Value) (k : Nat) (rs : List Value),
      strPre "_" attr = false →
      setElems t attr k vs ds = Except.ok rs →
      vs.length = ds.length → fillsList vs ds = true → pyEqList rs vs = true
  | [], ds, k, rs, hpriv, h, hlen, hf => by
    simp [setElems] at h
    cases ds with
    | nil =>
      subst h
      rfl
    | cons d dstl => simp at hlen
  | v :: vstl, ds, k, rs, hpriv, h, hlen, hf => by
    cases ds with
    | nil => simp at hlen
    | cons d dstl =>
      simp only [setElems] at h
      by_cases hc : (!v.isNone && d.isNone) = true
      · simp [hc] at h
      · simp only [hc, Bool.false_eq_true, if_neg, if_false] at h
        rw [except_bind_ok_iff] at h
        obtain ⟨v', hv', h2⟩ := h
        rw [except_bind_ok_iff] at h2
        obtain ⟨rest, hrest, h3⟩ := h2
        simp only [except_pure_def, Except.ok.injEq] at h3
        subst h3
        simp only [fillsList, Bool.and_eq_true] at hf
        simp only [pyEqList, Bool.and_eq_true]
        exact ⟨(validateattr_roundtrip t attr v d v' hpriv hv').2 hf.1,
          setElems_roundtrip t attr vstl dstl (k + 1) rest hpriv hrest
            (by simpa using hlen) hf.2⟩
end

theorem alookup_dictSet_self {a : Type} (l : List (String × a)) (k : String)
    (v : a) : alookup (dictSet l k v) k = Option.some v := by
  induction l with
  | nil => simp [dictSet, alookup]
  | cons p rest ih =>
    obtain ⟨pk, pv⟩ := p
    by_cases h : pk = k
    · simp [dictSet, h, alookup]
    · simp [dictSet, h, alookup, ih]

/-- C1 (amended): after a successful assignment of a value `V` to a
non-private canonical attribute `N` holding prior value `cur`, the store
holds the validated value `V'`; the runtime type of `V'` equals the prior
value's type, and whenever `V` fills the prior value's list shape (always
for non-list values, and for list values of exactly the stored length,
recursively) the stored value compares equal (Python `==`) to `V` — in
particular an integer assigned to a float attribute is stored coerced and
still compares equal.  (A list `V` shorter than the stored list is padded
with the prior elements, so `get(N) == V` fails there; see the
counterexample.) -/
theorem set_get_roundtrip (t t' : Task) (N : String) (V cur : Value)
    (hpriv : strPre "_" N = false)
    (hcur : alookup t.dict N = Option.some cur)
    (hset : setCanonical t N V = Except.ok t') :
    ∃ V', validateattr t N V cur = Except.ok V' ∧
      alookup t'.dict N = Option.some V' ∧
      V'.ty = cur.ty ∧
      (fills V cur = true → pyEq V' V = true) := by
  simp only [setCanonical, hcur] at hset
  rw [except_bind_ok_iff] at hset
  obtain ⟨V', hval, h2⟩ := hset
  simp only [except_pure_def, Except.ok.injEq] at h2
  subst h2
  obtain ⟨hty, hpe⟩ := validateattr_roundtrip t N V cur V' hpriv hval
  exact ⟨V', hval, alookup_dictSet_self t.dict N V', hty, hpe⟩

/-- C1 witness: assigning the integer `2` to the float attribute `pixavg`
stores the coerced `2.0`, of float type like the prior value, and the
stored value compares equal to the assigned `2`. -/
theorem set_get_roundtrip_witness :
    ∃ V', validateattr myTask "pixavg" (Value.int 2) (Value.float 1) =
        Except.ok V' ∧
      alookup (dictSet myTask.dict "pixavg" (Value.float 2)) "pixavg" =
        Option.some V' ∧
      V'.ty = PyType.floatT ∧
      (fills (Value.int 2) (Value.float 1) = true →
        pyEq V' (Value.int 2) = true) :=
  set_get_roundtrip myTask
    { myTask with dict := dictSet myTask.dict "pixavg" (Value.float 2) }
    "pixavg" (Value.int 2) (Value.float 1) (by decide) (by decide) (by decide)

/-- C1 counterexample: the three-element list `[1, 2, 3]` passes validation
for the ten-element attribute `aparms`, but the stored list has length 10
(the tail keeps the prior elements), so reading back compares unequal to
the assigned value. -/
theorem set_get_roundtrip_shorter_list_cex :
    Task_setattr myTask "aparms"
        (Value.list [Value.int 1, Value.int 2, Value.int 3]) =
      Except.ok myTaskAfter3 ∧
    Task_getattr myTaskAfter3 "aparms" = Except.ok stored3 ∧
    pyEq stored3 (Value.list [Value.int 1, Value.int 2, Value.int 3]) =
      false := by
  refine ⟨by decide, by decide, by decide⟩

end Parseltongue
